import Mathlib

/-!
Verification development for `routAfare_botFINAL.py`, a Telegram bus-booking
bot backed by PostgreSQL.  The Python handlers are shallowly embedded as pure
Lean functions: the per-chat session state and the `services` table become
explicit values threaded through the handlers, Python ints become `Int`,
Python floats (fares) become `ℚ`, and fallible steps return `Option`.
-/

namespace RoutAfare

/-! ### Python string primitives used by the handlers -/

/-- Python `str.strip()` on the character list of a string. -/
def pyStrip (cs : List Char) : List Char :=
  ((cs.dropWhile Char.isWhitespace).reverse.dropWhile Char.isWhitespace).reverse

/-- Python `str.lower()` on the character list of a string. -/
def pyLower (cs : List Char) : List Char :=
  cs.map Char.toLower

/-- Python substring test `pat in s` on character lists. -/
def strContains (pat : List Char) : List Char → Bool
  | [] => pat.isEmpty
  | c :: t => pat.isPrefixOf (c :: t) || strContains pat t

/-- Value of a digit string, as used after `int(...)` on a run of digits. -/
def digitsToNat (ds : List Char) : Nat :=
  ds.foldl (fun a c => a * 10 + (c.toNat - 48)) 0

/-- First maximal run of decimal digits, Python `re.search(r'\d+', text)`. -/
def firstDigitRun : List Char → Option (List Char)
  | [] => none
  | c :: t => if c.isDigit then some (c :: t.takeWhile Char.isDigit) else firstDigitRun t

/-- Python `int(text)` on an already-stripped string: an optional sign
followed by one or more digits; anything else raises `ValueError` (`none`). -/
def parseInt? (cs : List Char) : Option Int :=
  match cs with
  | [] => none
  | '-' :: ds =>
      if ds ≠ [] ∧ ds.all Char.isDigit then some (-(digitsToNat ds : Int)) else none
  | '+' :: ds =>
      if ds ≠ [] ∧ ds.all Char.isDigit then some ((digitsToNat ds : Int)) else none
  | ds =>
      if ds.all Char.isDigit then some ((digitsToNat ds : Int)) else none

/-- Python `range(a, b)` as a list of integers `a, a+1, ..., b-1`. -/
def pyRange (a b : Int) : List Int :=
  (List.range (b - a).toNat).map (fun i => a + (i : Int))

/-! ### Data model

The `services` PostgreSQL table (lines 148-160 of the source): each row has a
text primary key `id`, a provider id, a name, a route, a JSONB fare object
with optional keys `Adult`, `Child`, `Teacher`, integer seat counts and a
text status. -/

/-- The JSONB `fare` object of a service: each bracket key may be absent. -/
structure FareTable where
  adult : Option ℚ
  child : Option ℚ
  teacher : Option ℚ
deriving DecidableEq

/-- One row of the `services` table. -/
structure Service where
  id : String
  provider_id : String
  name : String
  route : String
  fare : FareTable
  total_seats : Int
  remaining_seats : Int
  status : String
deriving DecidableEq

/-- The seat invariant claimed by the spec for every service. -/
def seatInvariant (s : Service) : Prop :=
  0 ≤ s.remaining_seats ∧ s.remaining_seats ≤ s.total_seats

instance (s : Service) : Decidable (seatInvariant s) := by
  unfold seatInvariant
  infer_instance

/-- The `booking` dict stored in the session data (lines 626-633). -/
structure Booking where
  service_id : String
  total_passengers : Int
  current_passenger : Int
  nAdult : Int
  nChild : Int
  nTeacher : Int
deriving DecidableEq

/-- Lines 626-633: `state_data['booking']` is initialized with the chosen
service id and passenger count, `current_passenger = 1` and all per-type
counters zero. -/
def init_booking (s_id : String) (count : Int) : Booking :=
  { service_id := s_id
    total_passengers := count
    current_passenger := 1
    nAdult := 0
    nChild := 0
    nTeacher := 0 }

/-- The keys of `state_data` that the booking flow reads and writes. -/
structure SessionData where
  booking : Option Booking
  selected_service_id : Option String
  available_services : List String
deriving DecidableEq

/-- Bot state keys (lines 266-277). -/
def STATE_START : String := "start"

def STATE_AWAIT_CHOICE : String := "await_choice"

def STATE_AWAIT_PASSENGER_ADULT : String := "await_passenger_adult"

/-! ### Provider registration (lines 705-843)

Each registration step handler validates one free-text field of the service
under construction (`state_data['new_service']`) and either advances to the
next step (`some` updated draft) or re-prompts leaving the draft unchanged
(`none`).  Fare inputs go through Python `float(...)`; that parse is modelled
as an already-parsed `Option ℚ` argument (`none` meaning `ValueError`), and
Python `round(x, 2)` is modelled as rounding to the nearest hundredth (the
banker-rounding tie behaviour of Python is never exercised by the claims). -/

/-- Rounding to 2 decimal places, Python `round(x, 2)`. -/
def round2 (x : ℚ) : ℚ :=
  ((round (100 * x) : ℤ) : ℚ) / 100

/-- The `state_data['new_service']` draft built up across registration steps. -/
structure NewService where
  provider_id : String
  name : Option String
  route : Option String
  total_seats : Option Int
  remaining_seats : Option Int
  fare : FareTable
deriving DecidableEq

/-- Line 472: `state_data['new_service'] = {'provider_id': str(call.from_user.id)}`. -/
def init_new_service (provider_id : String) : NewService :=
  { provider_id := provider_id
    name := none
    route := none
    total_seats := none
    remaining_seats := none
    fare := ⟨none, none, none⟩ }

/-- Lines 705-721: service name input; rejected when empty or longer than 50. -/
def handle_service_name_input (ns : NewService) (text : String) : Option NewService :=
  let name := pyStrip text.data
  if name.isEmpty ∨ name.length > 50 then none
  else some { ns with name := some (String.mk name) }

/-- Lines 723-738: route input; rejected when empty or longer than 100. -/
def handle_route_input (ns : NewService) (text : String) : Option NewService :=
  let route := pyStrip text.data
  if route.isEmpty ∨ route.length > 100 then none
  else some { ns with route := some (String.mk route) }

/-- Lines 740-759: total seats input; `int(message.text.strip())`, rejected
unless `0 < seats ≤ 100`; on success both seat fields are set to `seats` and
the fare dictionary is initialized empty. -/
def handle_seats_input (ns : NewService) (text : String) : Option NewService :=
  match parseInt? (pyStrip text.data) with
  | none => none
  | some seats =>
      if seats ≤ 0 ∨ seats > 100 then none
      else some { ns with
                    total_seats := some seats
                    remaining_seats := some seats
                    fare := ⟨none, none, none⟩ }

/-- Lines 761-778: adult fare input; rejected when unparsable or negative. -/
def handle_adult_fare_input (ns : NewService) (fare : Option ℚ) : Option NewService :=
  match fare with
  | none => none
  | some f =>
      if f < 0 then none
      else some { ns with fare := { ns.fare with adult := some (round2 f) } }

/-- Lines 780-797: child fare input; rejected when unparsable or negative. -/
def handle_child_fare_input (ns : NewService) (fare : Option ℚ) : Option NewService :=
  match fare with
  | none => none
  | some f =>
      if f < 0 then none
      else some { ns with fare := { ns.fare with child := some (round2 f) } }

/-- Lines 799-820: teacher fare input and final save: on a valid fare the
draft is completed with a fresh unique id and `status = 'active'` and written
to the `services` table via `sync_save_service`.  The returned `Service` is
the row passed to the database. -/
def handle_teacher_fare_input (ns : NewService) (fare : Option ℚ)
    (unique_id : String) : Option Service :=
  match fare with
  | none => none
  | some f =>
      if f < 0 then none
      else
        some { id := unique_id
               provider_id := ns.provider_id
               name := ns.name.getD ""
               route := ns.route.getD ""
               fare := { ns.fare with teacher := some (round2 f) }
               total_seats := ns.total_seats.getD 0
               remaining_seats := ns.remaining_seats.getD 0
               status := "active" }

/-- The whole registration flow run on one successful input per step: the
composition of the six step handlers starting from a fresh draft. -/
def registration_pipeline (provider_id name route seats : String)
    (adultFare childFare teacherFare : Option ℚ) (unique_id : String) :
    Option Service :=
  (handle_service_name_input (init_new_service provider_id) name).bind fun ns1 =>
  (handle_route_input ns1 route).bind fun ns2 =>
  (handle_seats_input ns2 seats).bind fun ns3 =>
  (handle_adult_fare_input ns3 adultFare).bind fun ns4 =>
  (handle_child_fare_input ns4 childFare).bind fun ns5 =>
  handle_teacher_fare_input ns5 teacherFare unique_id

/-! ### Database write operations on the `services` table -/

/-- Lines 241-262 as invoked with `{'remaining_seats': v}`: the SQL statement
`UPDATE services SET remaining_seats = v WHERE id = sid` applied to the table
held as a list of rows. -/
def update_service_remaining (db : List Service) (sid : String) (v : Int) :
    List Service :=
  db.map fun s => if s.id == sid then { s with remaining_seats := v } else s

/-- Lines 241-262 as invoked with `{'status': st}` by the provider status
toggle (line 516). -/
def update_service_status (db : List Service) (sid : String) (st : String) :
    List Service :=
  db.map fun s => if s.id == sid then { s with status := st } else s

/-- Lines 502-516: toggling one service flips `active` to `unavailable` and
anything else to `active`; only the `status` column is written. -/
def toggle_status (s : Service) : Service :=
  { s with status := if s.status == "active" then "unavailable" else "active" }

/-! ### Customer booking flow -/

/-- Lines 600-604: the passenger-count buttons offered after selecting a
service are built by `for i in range(1, 6)`. -/
def passenger_count_options : List Int := pyRange 1 6

/-- The charged fare bracket of a passenger (keys of the fare JSONB). -/
inductive ChargedType
  | Adult
  | Child
  | Teacher
deriving DecidableEq

/-- The result of `get_fare_type` (lines 848-857). -/
inductive AgeClass
  | Adult
  | Child
  | Infant
deriving DecidableEq

/-- Lines 848-857: age classification; `age >= 18` is Adult, `5 <= age < 18`
is Child, `0 < age < 5` is Infant and anything else is invalid (`None`). -/
def get_fare_type (age : Int) : Option AgeClass :=
  if age ≥ 18 then some AgeClass.Adult
  else if 5 ≤ age ∧ age < 18 then some AgeClass.Child
  else if 0 < age ∧ age < 5 then some AgeClass.Infant
  else none

/-- Lines 862-905: parsing of one age-loop text input.  The text is stripped
and lowercased; if it contains `teacher`, `student` or `std` the passenger is
charged as Teacher; otherwise the first digit run is read as the age and
classified by `get_fare_type`, with Infant charged as Child (lines 893-896);
a missing digit run or an invalid age yields `none`, which makes the handler
re-prompt without recording anything. -/
def classify_input (raw : String) : Option ChargedType :=
  let text := pyLower (pyStrip raw.data)
  if strContains "teacher".data text ∨ strContains "student".data text ∨
      strContains "std".data text then
    some ChargedType.Teacher
  else
    match firstDigitRun text with
    | some ds =>
        match get_fare_type ((digitsToNat ds : Nat) : Int) with
        | some AgeClass.Adult => some ChargedType.Adult
        | some AgeClass.Child => some ChargedType.Child
        | some AgeClass.Infant => some ChargedType.Child
        | none => none
    | none => none

/-- Lines 908-915: record the determined fare type for the current passenger
and advance `current_passenger` by one. -/
def recordPassenger (b : Booking) (ft : ChargedType) : Booking :=
  let b1 :=
    match ft with
    | ChargedType.Adult => { b with nAdult := b.nAdult + 1 }
    | ChargedType.Child => { b with nChild := b.nChild + 1 }
    | ChargedType.Teacher => { b with nTeacher := b.nTeacher + 1 }
  { b1 with current_passenger := b.current_passenger + 1 }

/-- Outcome of one run of `handle_passenger_age_input`. -/
inductive AgeInputResult
  | flowError
  | reprompt
  | nextPassenger (b : Booking)
  | summary (b : Booking)
deriving DecidableEq

/-- Lines 859-975: the age-loop text handler.  The safeguard at lines 869-873
fires when the counter is already past the total (state goes back to
`await_choice`, modelled as `flowError`); an unparsable input re-prompts the
same passenger with the booking unchanged (`reprompt`); a recorded passenger
either continues the loop in state `await_passenger_adult` (`nextPassenger`)
or, when the incremented counter exceeds the total, shows the booking summary
and moves to `await_choice` (`summary`). -/
def handle_passenger_age_input (b : Booking) (raw : String) : AgeInputResult :=
  if b.current_passenger > b.total_passengers then AgeInputResult.flowError
  else
    match classify_input raw with
    | none => AgeInputResult.reprompt
    | some ft =>
        let b2 := recordPassenger b ft
        if b2.current_passenger ≤ b.total_passengers then
          AgeInputResult.nextPassenger b2
        else
          AgeInputResult.summary b2

/-- State of the age-collection loop after consuming a list of inputs. -/
inductive AgeLoopState
  | awaiting (b : Booking)
  | done (b : Booking)
  | aborted
deriving DecidableEq

/-- Driving the age loop over a list of text inputs: each input is fed to
`handle_passenger_age_input`; a re-prompt leaves the booking unchanged, a
recorded passenger updates it, and the summary ends the loop. -/
def consume (b : Booking) : List String → AgeLoopState
  | [] => AgeLoopState.awaiting b
  | t :: ts =>
      match handle_passenger_age_input b t with
      | AgeInputResult.flowError => AgeLoopState.aborted
      | AgeInputResult.reprompt => consume b ts
      | AgeInputResult.nextPassenger b2 => consume b2 ts
      | AgeInputResult.summary b2 => AgeLoopState.done b2

/-- Contribution of one bracket to the booking total, from the loop at lines
951-956: `if count > 0 and p_type in fare_data: total_fare += count * price`;
a bracket missing from the fare object contributes nothing. -/
def bracketSubtotal (price : Option ℚ) (count : Int) : ℚ :=
  match price with
  | some p => if count > 0 then (count : ℚ) * p else 0
  | none => 0

/-- Lines 946-956: the total fare of a booking against a fare table, the sum
of the Adult, Child and Teacher subtotals.  The code never rounds this value;
it is only printed with a 2-decimal format. -/
def computeTotalFare (fd : FareTable) (b : Booking) : ℚ :=
  bracketSubtotal fd.adult b.nAdult + bracketSubtotal fd.child b.nChild +
    bracketSubtotal fd.teacher b.nTeacher

/-! ### Booking confirmation (lines 977-1031) -/

/-- Outcome of `handle_confirm_booking`: the booking data may be missing
(lines 985-988), the seat deduction may succeed and be confirmed with the
summary message (lines 997-1020), the database write may fail (lines
1021-1022), or the remaining seats may be insufficient, including the case
where the service row is gone (lines 1023-1024). -/
inductive ConfirmOutcome
  | bookingLost
  | confirmed (newRemaining : Int)
  | dbFailure
  | insufficient
deriving DecidableEq

/-- The observable result of one confirmation attempt: the outcome, the state
key stored by `sync_set_state`, the session data after the handler, and the
`services` table after the handler. -/
structure ConfirmResult where
  outcome : ConfirmOutcome
  state_key : String
  data : SessionData
  services : List Service
deriving DecidableEq

/-- Lines 1013-1015 and 1026-1029: both the success path and every failure
path pop `booking` and `selected_service_id` from the session data. -/
def clearBooking (d : SessionData) : SessionData :=
  { d with booking := none, selected_service_id := none }

/-- Lines 977-1031: the `confirm_booking` callback handler.  It reads the
booking from the session data (re-prompting the search when missing),
re-reads the service row, compares `remaining_seats` with the booked
passenger count, and on success writes the decremented count back through
`sync_update_service`.  The success of that SQL write is the `dbOk`
argument.  Every outcome with a booking present clears the booking keys and
stores state `await_choice`. -/
def handle_confirm_booking (d : SessionData) (db : List Service) (dbOk : Bool) :
    ConfirmResult :=
  match d.booking with
  | none =>
      { outcome := ConfirmOutcome.bookingLost
        state_key := STATE_AWAIT_CHOICE
        data := d
        services := db }
  | some booking =>
      let s_id := booking.service_id
      let total_passengers := booking.total_passengers
      match db.find? (fun s => s.id == s_id) with
      | some svc =>
          if svc.remaining_seats ≥ total_passengers then
            let newRem := svc.remaining_seats - total_passengers
            if dbOk then
              { outcome := ConfirmOutcome.confirmed newRem
                state_key := STATE_AWAIT_CHOICE
                data := clearBooking d
                services := update_service_remaining db s_id newRem }
            else
              { outcome := ConfirmOutcome.dbFailure
                state_key := STATE_AWAIT_CHOICE
                data := clearBooking d
                services := db }
          else
            { outcome := ConfirmOutcome.insufficient
              state_key := STATE_AWAIT_CHOICE
              data := clearBooking d
              services := db }
      | none =>
          { outcome := ConfirmOutcome.insufficient
            state_key := STATE_AWAIT_CHOICE
            data := clearBooking d
            services := db }

/-- Lines 554-577: the customer search handler lists the active services,
stores their ids in the session data and sets state `await_choice`, the key
under which the offer list is presented; with no active service it only
shows an alert (`none`). -/
def handle_cust_search (d : SessionData) (db : List Service) :
    Option (String × SessionData × List Service) :=
  let available := db.filter (fun s => s.status == "active")
  if available.isEmpty then none
  else
    some (STATE_AWAIT_CHOICE,
          { d with available_services := available.map (fun s => s.id) },
          available)

/-! ### Interleaved confirmations (the cross-chat race of spec section 5)

`handle_confirm_booking` touches the database twice: a read of the whole
`services` table (`sync_get_all_services`, line 994) and, later, a write
(`sync_update_service`, line 1001) whose SQL sets `remaining_seats` to the
absolute value computed from the earlier snapshot, with no `WHERE`
condition on the current seat count.  Two confirmations from two different
chats can therefore interleave at this granularity. -/

/-- The read phase of one confirmation: the snapshot of the service row
(line 994-995). -/
def confirm_read (db : List Service) (sid : String) : Option Service :=
  db.find? (fun s => s.id == sid)

/-- The check-and-write phase of one confirmation, acting on the earlier
snapshot (lines 997-1001): the seat check uses the snapshot, and the write
stores `snapshot.remaining_seats - n` unconditionally. -/
def confirm_write (db : List Service) (sid : String) (snapshot : Option Service)
    (n : Int) : Bool × List Service :=
  match snapshot with
  | some svc =>
      if svc.remaining_seats ≥ n then
        (true, update_service_remaining db sid (svc.remaining_seats - n))
      else
        (false, db)
  | none => (false, db)

/-- Two confirmations for the same service interleaved as: A reads, B reads,
A writes, B writes.  Returns whether each caller succeeded and the final
table. -/
def interleaved_bookings (db : List Service) (sid : String) (nA nB : Int) :
    Bool × Bool × List Service :=
  let snapA := confirm_read db sid
  let snapB := confirm_read db sid
  let resA := confirm_write db sid snapA nA
  let resB := confirm_write resA.2 sid snapB nB
  (resA.1, resB.1, resB.2)

/-! ### Fare estimator (spec section 4.2) -/

/-- Modelled from the spec: the repository source has no fare-estimator code
at all — `vertex_predictor` is initialized (lines 60-78) but never invoked,
and no local fallback formula appears anywhere in `src`.  This definition
follows the words of spec section 4.2: the local fallback
`max(5.0, round((20.0 * passengerCount + distance_km * 5.0) * (1 + 0.1 * traffic_level), 2))`. -/
def fallback_fare (passengerCount distance_km traffic_level : ℚ) : ℚ :=
  max 5 (round2 ((20 * passengerCount + distance_km * 5) *
    (1 + (1 / 10) * traffic_level)))

/-- Modelled from the spec: the estimator contract of section 4.2; a
configured remote predictor that returns a fare is used as-is, and when no
predictor is configured or the remote call fails (`none`) the local
fallback formula is used. -/
def estimate (remote : Option ℚ) (passengerCount distance_km traffic_level : ℚ) :
    ℚ :=
  match remote with
  | some fare => fare
  | none => fallback_fare passengerCount distance_km traffic_level

/-! ### Observations on the age-loop state, used to phrase loop-length facts -/

/-- The passenger counter of a completed age loop, `none` when the loop has
not produced the booking summary. -/
def doneAt : AgeLoopState → Option Int
  | AgeLoopState.done b => some b.current_passenger
  | AgeLoopState.awaiting _ => none
  | AgeLoopState.aborted => none

/-- The passenger counter of a still-running age loop, `none` when the loop
is not awaiting a further age input. -/
def awaitingAt : AgeLoopState → Option Int
  | AgeLoopState.awaiting b => some b.current_passenger
  | AgeLoopState.done _ => none
  | AgeLoopState.aborted => none

/-! ### Concrete sample values used by the witnesses -/

/-- A sample service row with two remaining seats. -/
def svcEx : Service :=
  { id := "SVC_1_p"
    provider_id := "p"
    name := "Accra Express"
    route := "Accra - Kumasi"
    fare := ⟨some 150, some 75, none⟩
    total_seats := 2
    remaining_seats := 2
    status := "active" }

/-- A completed one-passenger booking for `svcEx`. -/
def bkEx : Booking :=
  { service_id := "SVC_1_p"
    total_passengers := 1
    current_passenger := 2
    nAdult := 1
    nChild := 0
    nTeacher := 0 }

/-- A completed three-passenger booking for `svcEx`, more than its seats. -/
def bkEx3 : Booking :=
  { service_id := "SVC_1_p"
    total_passengers := 3
    current_passenger := 4
    nAdult := 3
    nChild := 0
    nTeacher := 0 }

/-- A sample session data holding the one-passenger booking `bkEx`. -/
def dataEx : SessionData :=
  { booking := some bkEx
    selected_service_id := some "SVC_1_p"
    available_services := ["SVC_1_p"] }

/-- A sample session data holding the three-passenger booking `bkEx3`. -/
def dataEx3 : SessionData :=
  { booking := some bkEx3
    selected_service_id := some "SVC_1_p"
    available_services := ["SVC_1_p"] }

/-- The service produced by running the registration flow on the sample
inputs: 25 seats and fares 150, 75 and 4. -/
def svcRegEx : Service :=
  { id := "SVC_9_p"
    provider_id := "p"
    name := "Accra Express"
    route := "Accra - Kumasi"
    fare := ⟨some (round2 150), some (round2 75), some (round2 4)⟩
    total_seats := 25
    remaining_seats := 25
    status := "active" }

end RoutAfare
/-! ### Helper lemmas -/

namespace RoutAfare

/-- Recording a passenger advances the counter by exactly one. -/
lemma recordPassenger_current (b : Booking) (ft : ChargedType) :
    (recordPassenger b ft).current_passenger = b.current_passenger + 1 := by
  cases ft <;> rfl

/-- Recording a passenger does not change the booked total. -/
lemma recordPassenger_total (b : Booking) (ft : ChargedType) :
    (recordPassenger b ft).total_passengers = b.total_passengers := by
  cases ft <;> rfl

/-- One valid age input either continues the loop or finishes it, in both
cases recording the classified passenger. -/
lemma handle_valid_step (b : Booking) (t : String) (ft : ChargedType)
    (hc : classify_input t = some ft)
    (hle : b.current_passenger ≤ b.total_passengers) :
    handle_passenger_age_input b t =
      (if b.current_passenger + 1 ≤ b.total_passengers then
        AgeInputResult.nextPassenger (recordPassenger b ft)
      else
        AgeInputResult.summary (recordPassenger b ft)) := by
  unfold handle_passenger_age_input
  rw [if_neg (by omega), hc]
  simp only [recordPassenger_current]

/-- An invalid age input re-prompts without touching the booking. -/
lemma handle_invalid_step (b : Booking) (t : String)
    (hc : classify_input t = none)
    (hle : b.current_passenger ≤ b.total_passengers) :
    handle_passenger_age_input b t = AgeInputResult.reprompt := by
  unfold handle_passenger_age_input
  rw [if_neg (by omega), hc]

/-- Running the age loop over valid inputs: with exactly enough inputs to
reach the booked total the loop finishes with the counter one past the
total, and with fewer inputs it is still awaiting with the counter advanced
by the number of inputs consumed. -/
lemma consume_valid_all (ts : List String) : ∀ b : Booking,
    (∀ t ∈ ts, (classify_input t).isSome = true) →
    b.current_passenger ≤ b.total_passengers →
    (b.current_passenger + (ts.length : Int) = b.total_passengers + 1 →
      ∃ b2, consume b ts = AgeLoopState.done b2 ∧
        b2.current_passenger = b.total_passengers + 1 ∧
        b2.total_passengers = b.total_passengers) ∧
    (b.current_passenger + (ts.length : Int) ≤ b.total_passengers →
      ∃ b2, consume b ts = AgeLoopState.awaiting b2 ∧
        b2.current_passenger = b.current_passenger + (ts.length : Int) ∧
        b2.total_passengers = b.total_passengers) := by
  induction ts with
  | nil =>
      intro b _ hle
      refine ⟨fun heq => absurd heq (by simp; omega), fun _ => ⟨b, rfl, by simp, rfl⟩⟩
  | cons t ts ih =>
      intro b hvalid hle
      obtain ⟨ft, hft⟩ := Option.isSome_iff_exists.mp (hvalid t (List.mem_cons_self t ts))
      have hstep := handle_valid_step b t ft hft hle
      have hvalid' : ∀ u ∈ ts, (classify_input u).isSome = true :=
        fun u hu => hvalid u (List.mem_cons_of_mem t hu)
      have hrc := recordPassenger_current b ft
      have hrt := recordPassenger_total b ft
      constructor
      · intro heq
        simp only [List.length_cons] at heq
        by_cases hcont : b.current_passenger + 1 ≤ b.total_passengers
        · -- the loop continues; the tail finishes it
          have hdone := (ih (recordPassenger b ft) hvalid' (by omega)).1 (by rw [hrc, hrt]; push_cast at heq ⊢; omega)
          obtain ⟨b2, hc2, h1, h2⟩ := hdone
          refine ⟨b2, ?_, ?_, ?_⟩
          · unfold consume
            rw [hstep, if_pos hcont]
            exact hc2
          · rw [h1, hrt]
          · rw [h2, hrt]
        · -- this was the last passenger
          refine ⟨recordPassenger b ft, ?_, ?_, hrt⟩
          · unfold consume
            rw [hstep, if_neg hcont]
          · rw [hrc]; push_cast at heq; omega
      · intro hlt
        simp only [List.length_cons] at hlt
        have hcont : b.current_passenger + 1 ≤ b.total_passengers := by push_cast at hlt; omega
        have hwait := (ih (recordPassenger b ft) hvalid' (by omega)).2 (by rw [hrc, hrt]; push_cast at hlt ⊢; omega)
        obtain ⟨b2, hc2, h1, h2⟩ := hwait
        refine ⟨b2, ?_, ?_, ?_⟩
        · unfold consume
          rw [hstep, if_pos hcont]
          exact hc2
        · rw [h1, hrc]; simp only [List.length_cons]; push_cast; omega
        · rw [h2, hrt]

/-- Unfolding equation of `List.find?` on a cons cell, with the predicate
explicit. -/
lemma find?_cons_eq (p : Service → Bool) (a : Service) (l : List Service) :
    List.find? p (a :: l) = if p a then some a else List.find? p l := by
  cases hpa : p a <;> simp [List.find?, hpa]

/-- Finding the updated row: after `UPDATE services SET remaining_seats = v
WHERE id = sid`, looking up `sid` finds the previously found row with its
`remaining_seats` column replaced. -/
lemma find?_update_service_remaining (db : List Service) (sid : String) (v : Int)
    (svc : Service) (h : db.find? (fun s => s.id == sid) = some svc) :
    (update_service_remaining db sid v).find? (fun s => s.id == sid) =
      some { svc with remaining_seats := v } := by
  induction db with
  | nil => simp [List.find?] at h
  | cons a l ih =>
      unfold update_service_remaining at ih ⊢
      by_cases ha : a.id == sid
      · rw [find?_cons_eq, if_pos ha] at h
        obtain rfl : a = svc := Option.some.inj h
        simp only [List.map_cons, if_pos ha]
        rw [find?_cons_eq, if_pos (by simpa using ha)]
      · rw [find?_cons_eq, if_neg ha] at h
        simp only [List.map_cons, if_neg ha]
        rw [find?_cons_eq, if_neg ha]
        exact ih h

/-- Rows of a table whose ids are pairwise distinct (the PRIMARY KEY
constraint of the `services` table) are determined by their id. -/
lemma eq_of_mem_of_nodup_ids {db : List Service}
    (hnd : (db.map Service.id).Nodup) {s t : Service}
    (hs : s ∈ db) (ht : t ∈ db) (hid : s.id = t.id) : s = t := by
  induction db with
  | nil => cases hs
  | cons a l ih =>
      rw [List.map_cons, List.nodup_cons] at hnd
      rcases List.mem_cons.mp hs with rfl | hs2
      · rcases List.mem_cons.mp ht with rfl | ht2
        · rfl
        · exact absurd (hid ▸ List.mem_map_of_mem Service.id ht2) hnd.1
      · rcases List.mem_cons.mp ht with rfl | ht2
        · exact absurd (hid ▸ List.mem_map_of_mem Service.id hs2) hnd.1
        · exact ih hnd.2 hs2 ht2

/-- A row found by id is a member of the table satisfying the id test. -/
lemma find?_mem_and_id {db : List Service} {sid : String} {svc : Service}
    (h : db.find? (fun s => s.id == sid) = some svc) :
    svc ∈ db ∧ svc.id = sid := by
  refine ⟨List.mem_of_find?_eq_some h, ?_⟩
  have := List.find?_some h
  simpa using this

/-- Rationals that are a whole number of hundredths are fixed by `round2`. -/
lemma round2_cent (m : ℤ) : round2 ((m : ℚ) / 100) = (m : ℚ) / 100 := by
  unfold round2
  rw [show (100 : ℚ) * ((m : ℚ) / 100) = (m : ℚ) by field_simp, round_intCast]

/-- A rational fixed by `round2` is a whole number of hundredths. -/
lemma round2_fix {q : ℚ} (h : round2 q = q) :
    ∃ m : ℤ, q = (m : ℚ) / 100 :=
  ⟨round (100 * q), h.symm⟩

/-- A bracket subtotal over a whole-cent price is a whole number of cents. -/
lemma bracketSubtotal_cent (p : Option ℚ) (count : Int)
    (hp : ∀ q, p = some q → ∃ m : ℤ, q = (m : ℚ) / 100) :
    ∃ m : ℤ, bracketSubtotal p count = (m : ℚ) / 100 := by
  match p with
  | none => exact ⟨0, by simp [bracketSubtotal]⟩
  | some q =>
      obtain ⟨m, hm⟩ := hp q rfl
      by_cases hc : count > 0
      · refine ⟨count * m, ?_⟩
        simp only [bracketSubtotal, if_pos hc, hm]
        push_cast
        ring
      · exact ⟨0, by simp only [bracketSubtotal, if_neg hc]; simp⟩

/-- Unfolding characterization of the seat invariant. -/
lemma seatInvariant_def (s : Service) :
    seatInvariant s ↔ 0 ≤ s.remaining_seats ∧ s.remaining_seats ≤ s.total_seats :=
  Iff.rfl

/-! ### Claim theorems -/

/-- Claim C3: the spec demands that two concurrent seat decrements whose
combined counts exceed the remaining seats produce exactly one success.  The
handler instead reads a snapshot and later writes an absolute value with an
unconditional UPDATE, so with the interleaving read-A, read-B, write-A,
write-B on a service with 2 remaining seats, bookings of 2 and 1 passengers
BOTH succeed and the final remaining count is 1, not the required
single-success outcome. -/
theorem C3_interleaved_double_success :
    interleaved_bookings [svcEx] "SVC_1_p" 2 1 =
      (true, true, [{ svcEx with remaining_seats := 1 }]) ∧
    svcEx.remaining_seats = 2 := by decide

/-- Claim C4 counterexample: the claim says an age above 12 falls in the
adult bracket, but the code classifies 13 as Child (its child bracket is
ages 5 to 17), so a single 13-year-old against the table
with Adult at 150 and Child at 75 is charged 75, not 150. -/
theorem C4_cex_age13_charged_child :
    classify_input "13" = some ChargedType.Child ∧
    ChargedType.Child ≠ ChargedType.Adult ∧
    computeTotalFare ⟨some 150, some 75, none⟩
        (recordPassenger (init_booking "s" 1) ChargedType.Child) = 75 ∧
    (75 : ℚ) ≠ 150 := by
  refine ⟨by decide, by decide, ?_, by norm_num⟩
  norm_num [computeTotalFare, bracketSubtotal, recordPassenger, init_booking]

/-- Claim C4 (amended): the age brackets of `get_fare_type` are 18 and up
for Adult, 5 to 17 for Child, 1 to 4 for Infant (charged as Child), and an
age of 0 or below is invalid and re-prompts instead of riding free; the
total fare is the sum of per-bracket counts times the table prices of the
brackets present; the scenario ages 10, 30, 5 against the table with Adult
at 150 and Child at 75 still totals 300. -/
theorem C4_age_classification :
    (∀ age : Int, age ≥ 18 → get_fare_type age = some AgeClass.Adult) ∧
    (∀ age : Int, 5 ≤ age → age < 18 → get_fare_type age = some AgeClass.Child) ∧
    (∀ age : Int, 0 < age → age < 5 → get_fare_type age = some AgeClass.Infant) ∧
    (∀ age : Int, age ≤ 0 → get_fare_type age = none) ∧
    classify_input "0" = none ∧
    consume (init_booking "s" 3) ["10", "30", "5"] =
      AgeLoopState.done
        { service_id := "s", total_passengers := 3, current_passenger := 4,
          nAdult := 1, nChild := 2, nTeacher := 0 } ∧
    computeTotalFare ⟨some 150, some 75, none⟩
      { service_id := "s", total_passengers := 3, current_passenger := 4,
        nAdult := 1, nChild := 2, nTeacher := 0 } = 300 := by
  refine ⟨?_, ?_, ?_, ?_, by decide, by decide, ?_⟩
  · intro age h
    unfold get_fare_type
    rw [if_pos h]
  · intro age h1 h2
    unfold get_fare_type
    rw [if_neg (by omega), if_pos ⟨h1, h2⟩]
  · intro age h1 h2
    unfold get_fare_type
    rw [if_neg (by omega), if_neg (by omega), if_pos ⟨h1, h2⟩]
  · intro age h
    unfold get_fare_type
    rw [if_neg (by omega), if_neg (by omega), if_neg (by omega)]
  · norm_num [computeTotalFare, bracketSubtotal]

/-- Claim C4 witness: the amended classification applied at ages 20, 13, 3
and 0. -/
theorem C4_witness :
    get_fare_type 20 = some AgeClass.Adult ∧
    get_fare_type 13 = some AgeClass.Child ∧
    get_fare_type 3 = some AgeClass.Infant ∧
    get_fare_type 0 = none :=
  ⟨C4_age_classification.1 20 (by decide),
   C4_age_classification.2.1 13 (by decide) (by decide),
   C4_age_classification.2.2.1 3 (by decide) (by decide),
   C4_age_classification.2.2.2.1 0 (by decide)⟩

/-- Claim C5: modelled from the spec, since no estimator code exists in the
source: with no remote predictor result the estimate equals the fallback
formula, is at least 5 (hence finite and non-negative), and a remote result
is used as returned. -/
theorem C5_fallback_estimator :
    ∀ passengerCount distance_km traffic_level : ℚ,
      estimate none passengerCount distance_km traffic_level =
        max 5 (round2 ((20 * passengerCount + distance_km * 5) *
          (1 + (1 / 10) * traffic_level))) ∧
      5 ≤ estimate none passengerCount distance_km traffic_level ∧
      0 ≤ estimate none passengerCount distance_km traffic_level ∧
      (∀ fare : ℚ, estimate (some fare) passengerCount distance_km traffic_level = fare) := by
  intro pc d t
  refine ⟨rfl, ?_, ?_, fun fare => rfl⟩
  · exact le_max_left 5 _
  · exact le_trans (by norm_num) (le_max_left (5 : ℚ) _)

/-- Claim C6 counterexample: the claim says passenger counts 1 to 6 plus a
seven-plus bucket are offered, but the buttons are built by
`range(1, 6)`, so neither 6 nor 7 is selectable. -/
theorem C6_cex_no_bucket_beyond_five :
    (6 : Int) ∉ passenger_count_options ∧
    (7 : Int) ∉ passenger_count_options := by decide

/-- Claim C6 (amended): the passenger-count selection offers exactly the
integers 1 to 5; every such count is selectable and nothing else is. -/
theorem C6_passenger_count_options :
    ∀ n : Int, n ∈ passenger_count_options ↔ 1 ≤ n ∧ n ≤ 5 := by
  intro n
  rw [show passenger_count_options = [1, 2, 3, 4, 5] from by decide]
  simp only [List.mem_cons, List.not_mem_nil, or_false]
  constructor
  · intro h
    rcases h with rfl | rfl | rfl | rfl | rfl <;> omega
  · intro h
    omega

/-- Claim C7 counterexample: the claim says the input 200 is rejected
without advancing, but the code accepts any parsed age of 18 or more as
Adult, so on a fresh two-passenger booking the input 200 records passenger
one as Adult and advances the counter from 1 to 2. -/
theorem C7_cex_age200_accepted :
    handle_passenger_age_input (init_booking "s" 2) "200" =
      AgeInputResult.nextPassenger
        { service_id := "s", total_passengers := 2, current_passenger := 2,
          nAdult := 1, nChild := 0, nTeacher := 0 } ∧
    (init_booking "s" 2).current_passenger = 1 := by decide

/-- Claim C7 (amended): the age loop runs exactly `n` accepted iterations
for a booking of `n` passengers; an input with no digits and no
teacher/student keyword, such as abc, re-prompts the same passenger with
the booking unchanged; there is no upper age bound, only a parsed age of 0
or below (or an unparsable input) is rejected. -/
theorem C7_age_loop :
    (∀ b : Booking, b.current_passenger ≤ b.total_passengers →
      handle_passenger_age_input b "abc" = AgeInputResult.reprompt) ∧
    (∀ (sid : String) (n : Int) (ts : List String),
      1 ≤ n → (∀ t ∈ ts, (classify_input t).isSome = true) →
      (ts.length : Int) = n →
      doneAt (consume (init_booking sid n) ts) = some (n + 1)) ∧
    (∀ (sid : String) (n : Int) (ts : List String),
      1 ≤ n → (∀ t ∈ ts, (classify_input t).isSome = true) →
      (ts.length : Int) < n →
      awaitingAt (consume (init_booking sid n) ts) = some (1 + (ts.length : Int))) := by
  refine ⟨?_, ?_, ?_⟩
  · intro b hle
    exact handle_invalid_step b "abc" (by decide) hle
  · intro sid n ts hn hv hlen
    obtain ⟨b2, hc, h1, _⟩ :=
      (consume_valid_all ts (init_booking sid n) hv
        (show (1 : Int) ≤ n from hn)).1
        (show (1 : Int) + (ts.length : Int) = n + 1 by omega)
    rw [hc]
    simp only [doneAt, h1, init_booking]
  · intro sid n ts hn hv hlen
    obtain ⟨b2, hc, h1, _⟩ :=
      (consume_valid_all ts (init_booking sid n) hv
        (show (1 : Int) ≤ n from hn)).2
        (show (1 : Int) + (ts.length : Int) ≤ n by omega)
    rw [hc]
    simp only [awaitingAt, h1, init_booking]

/-- Claim C7 witness: the amended loop behaviour at a concrete booking: the
input abc re-prompts, two valid inputs finish a two-passenger booking with
the counter at 3, and one valid input leaves it awaiting at 2. -/
theorem C7_witness :
    handle_passenger_age_input (init_booking "s" 2) "abc" =
      AgeInputResult.reprompt ∧
    doneAt (consume (init_booking "s" 2) ["30", "10"]) = some 3 ∧
    awaitingAt (consume (init_booking "s" 2) ["30"]) = some 2 := by
  refine ⟨C7_age_loop.1 (init_booking "s" 2) (by decide),
    ?_, ?_⟩
  · have h := C7_age_loop.2.1 "s" 2 ["30", "10"] (by decide)
      (by decide) (by decide)
    simpa using h
  · have h := C7_age_loop.2.2 "s" 2 ["30"] (by decide)
      (by decide) (by decide)
    simpa using h

/-- Claim C9 counterexample: the claim says a passenger whose bracket is
missing from the table is charged the adult price, but the code skips
brackets absent from the fare object, so one Child passenger against a
table holding only Adult at 150 is charged 0, not 150. -/
theorem C9_cex_missing_bracket :
    computeTotalFare ⟨some 150, none, none⟩
      { service_id := "s", total_passengers := 1, current_passenger := 2,
        nAdult := 0, nChild := 1, nTeacher := 0 } = 0 ∧
    (0 : ℚ) ≠ 150 := by
  constructor
  · norm_num [computeTotalFare, bracketSubtotal]
  · norm_num

/-- Claim C9 (amended): a bracket missing from the fare table contributes
zero to the total (the child count has no effect when the child bracket is
absent), and the code applies no rounding; instead, whenever every price in
the table is already fixed by 2-decimal rounding, as registration
guarantees, the computed total is its own 2-decimal rounding. -/
theorem C9_missing_bracket_zero :
    (∀ (fd : FareTable) (b : Booking) (k : Int), fd.child = none →
      computeTotalFare fd { b with nChild := k } = computeTotalFare fd b) ∧
    (∀ (fd : FareTable) (b : Booking),
      (∀ q, fd.adult = some q → round2 q = q) →
      (∀ q, fd.child = some q → round2 q = q) →
      (∀ q, fd.teacher = some q → round2 q = q) →
      round2 (computeTotalFare fd b) = computeTotalFare fd b) := by
  constructor
  · intro fd b k hc
    simp [computeTotalFare, hc, bracketSubtotal]
  · intro fd b ha hc ht
    obtain ⟨mA, hA⟩ :=
      bracketSubtotal_cent fd.adult b.nAdult (fun q hq => round2_fix (ha q hq))
    obtain ⟨mC, hC⟩ :=
      bracketSubtotal_cent fd.child b.nChild (fun q hq => round2_fix (hc q hq))
    obtain ⟨mT, hT⟩ :=
      bracketSubtotal_cent fd.teacher b.nTeacher (fun q hq => round2_fix (ht q hq))
    have htot : computeTotalFare fd b = ((mA + mC + mT : ℤ) : ℚ) / 100 := by
      unfold computeTotalFare
      rw [hA, hC, hT]
      push_cast
      ring
    rw [htot, round2_cent]

/-- Claim C9 witness: the amended statement at a concrete table holding
only Adult at 150: a single child is charged the same as no child at all,
and the total of one adult is already exact to 2 decimals. -/
theorem C9_witness :
    computeTotalFare ⟨some 150, none, none⟩
      { service_id := "s", total_passengers := 1, current_passenger := 2,
        nAdult := 1, nChild := 1, nTeacher := 0 } =
    computeTotalFare ⟨some 150, none, none⟩
      { service_id := "s", total_passengers := 1, current_passenger := 2,
        nAdult := 1, nChild := 0, nTeacher := 0 } ∧
    round2 (computeTotalFare ⟨some 150, none, none⟩
      { service_id := "s", total_passengers := 1, current_passenger := 2,
        nAdult := 1, nChild := 0, nTeacher := 0 }) =
    computeTotalFare ⟨some 150, none, none⟩
      { service_id := "s", total_passengers := 1, current_passenger := 2,
        nAdult := 1, nChild := 0, nTeacher := 0 } := by
  constructor
  · have h := C9_missing_bracket_zero.1 ⟨some 150, none, none⟩
      { service_id := "s", total_passengers := 1, current_passenger := 2,
        nAdult := 1, nChild := 0, nTeacher := 0 } 1 rfl
    simpa using h
  · exact C9_missing_bracket_zero.2 ⟨some 150, none, none⟩
      { service_id := "s", total_passengers := 1, current_passenger := 2,
        nAdult := 1, nChild := 0, nTeacher := 0 }
      (fun q hq => by cases Option.some.inj hq; norm_num [round2, round_eq])
      (fun q hq => by cases hq)
      (fun q hq => by cases hq)

/-- Claim C10: every confirmation outcome reached with a booking present in
the session data — successful decrement, database write failure, or
insufficient seats (including a vanished service row) — leaves the session
data without the booking and selected-service keys and stores state
`await_choice`. -/
theorem C10_confirm_clears_booking :
    ∀ (d : SessionData) (db : List Service) (dbOk : Bool) (bk : Booking),
      d.booking = some bk →
      (handle_confirm_booking d db dbOk).data.booking = none ∧
      (handle_confirm_booking d db dbOk).data.selected_service_id = none ∧
      (handle_confirm_booking d db dbOk).state_key = STATE_AWAIT_CHOICE := by
  intro d db dbOk bk hb
  simp only [handle_confirm_booking, hb]
  rcases hf : db.find? (fun s => s.id == bk.service_id) with _ | svc
  · simp [hf, clearBooking]
  · by_cases hge : svc.remaining_seats ≥ bk.total_passengers
    · cases dbOk <;> simp [hf, hge, clearBooking]
    · simp [hf, hge, clearBooking]

/-- Claim C10 witness: the clearing behaviour at the sample session holding
a one-passenger booking against the sample service. -/
theorem C10_witness :
    (handle_confirm_booking dataEx [svcEx] true).data.booking = none ∧
    (handle_confirm_booking dataEx [svcEx] true).data.selected_service_id = none ∧
    (handle_confirm_booking dataEx [svcEx] true).state_key = STATE_AWAIT_CHOICE :=
  C10_confirm_clears_booking dataEx [svcEx] true bkEx rfl

/-- Claim C2: with the booking present and its service row found, a
sufficient remaining-seat count and a successful database write decrement
the stored count by exactly the booked passenger count and confirm the
booking with the summary outcome; an insufficient count leaves the table
untouched and reports the insufficient outcome whatever the database would
have done. -/
theorem C2_confirm_decrement :
    ∀ (d : SessionData) (db : List Service) (bk : Booking) (svc : Service),
      d.booking = some bk →
      db.find? (fun s => s.id == bk.service_id) = some svc →
      (bk.total_passengers ≤ svc.remaining_seats →
        (handle_confirm_booking d db true).outcome =
          ConfirmOutcome.confirmed (svc.remaining_seats - bk.total_passengers) ∧
        (handle_confirm_booking d db true).services =
          update_service_remaining db bk.service_id
            (svc.remaining_seats - bk.total_passengers) ∧
        (handle_confirm_booking d db true).services.find?
            (fun s => s.id == bk.service_id) =
          some { svc with remaining_seats :=
                   svc.remaining_seats - bk.total_passengers }) ∧
      (svc.remaining_seats < bk.total_passengers →
        ∀ dbOk, (handle_confirm_booking d db dbOk).services = db ∧
          (handle_confirm_booking d db dbOk).outcome =
            ConfirmOutcome.insufficient) := by
  intro d db bk svc hb hf
  constructor
  · intro hge
    have hred : handle_confirm_booking d db true =
        { outcome := ConfirmOutcome.confirmed
            (svc.remaining_seats - bk.total_passengers)
          state_key := STATE_AWAIT_CHOICE
          data := clearBooking d
          services := update_service_remaining db bk.service_id
            (svc.remaining_seats - bk.total_passengers) } := by
      simp [handle_confirm_booking, hb, hf, hge, clearBooking]
    rw [hred]
    exact ⟨rfl, rfl, find?_update_service_remaining db bk.service_id _ svc hf⟩
  · intro hlt dbOk
    have hge : ¬ bk.total_passengers ≤ svc.remaining_seats := by omega
    have hred : handle_confirm_booking d db dbOk =
        { outcome := ConfirmOutcome.insufficient
          state_key := STATE_AWAIT_CHOICE
          data := clearBooking d
          services := db } := by
      simp [handle_confirm_booking, hb, hf, hge, clearBooking]
    rw [hred]
    exact ⟨rfl, rfl⟩

/-- Claim C2 witness: on the sample session booking one passenger of the
sample two-seat service, confirmation yields the confirmed outcome with one
seat left and persists the decremented row; on the three-passenger booking
the table is unchanged. -/
theorem C2_witness :
    (handle_confirm_booking dataEx [svcEx] true).outcome =
      ConfirmOutcome.confirmed (svcEx.remaining_seats - bkEx.total_passengers) ∧
    (handle_confirm_booking dataEx [svcEx] true).services.find?
        (fun s => s.id == bkEx.service_id) =
      some { svcEx with remaining_seats :=
               svcEx.remaining_seats - bkEx.total_passengers } ∧
    (handle_confirm_booking dataEx3 [svcEx] true).services = [svcEx] ∧
    (handle_confirm_booking dataEx3 [svcEx] true).outcome =
      ConfirmOutcome.insufficient := by
  have hok := (C2_confirm_decrement dataEx [svcEx] bkEx svcEx rfl
    (by decide)).1 (by decide)
  have hno := (C2_confirm_decrement dataEx3 [svcEx] bkEx3 svcEx rfl
    (by decide)).2 (by decide) true
  exact ⟨hok.1, hok.2.2, hno.1, hno.2⟩

/-- Claim C8: a confirmation finding insufficient remaining seats reports
the non-fatal insufficient outcome (the handler returns a normal alert
response rather than failing), leaves the services table untouched, and
stores state `await_choice` — the same state key under which the customer
search presents the offer list, so the user can pick a different offer. -/
theorem C8_insufficient_nonfatal :
    ∀ (d : SessionData) (db : List Service) (dbOk : Bool) (bk : Booking)
      (svc : Service),
      d.booking = some bk →
      db.find? (fun s => s.id == bk.service_id) = some svc →
      svc.remaining_seats < bk.total_passengers →
      (handle_confirm_booking d db dbOk).outcome = ConfirmOutcome.insufficient ∧
      (handle_confirm_booking d db dbOk).state_key = STATE_AWAIT_CHOICE ∧
      (handle_confirm_booking d db dbOk).services = db ∧
      (∀ (d2 : SessionData) (db2 : List Service)
        (res : String × SessionData × List Service),
        handle_cust_search d2 db2 = some res →
        res.1 = (handle_confirm_booking d db dbOk).state_key) := by
  intro d db dbOk bk svc hb hf hlt
  have hge : ¬ bk.total_passengers ≤ svc.remaining_seats := by omega
  have hred : handle_confirm_booking d db dbOk =
      { outcome := ConfirmOutcome.insufficient
        state_key := STATE_AWAIT_CHOICE
        data := clearBooking d
        services := db } := by
    simp [handle_confirm_booking, hb, hf, hge, clearBooking]
  rw [hred]
  refine ⟨rfl, rfl, rfl, ?_⟩
  intro d2 db2 res hcs
  unfold handle_cust_search at hcs
  by_cases he : (db2.filter (fun s => s.status == "active")).isEmpty
  · rw [if_pos he] at hcs
    cases hcs
  · rw [if_neg he] at hcs
    cases Option.some.inj hcs
    rfl

/-- Claim C8 witness: the sample three-passenger booking against the
two-seat service is rejected as insufficient, keeps the table unchanged and
stores the offer-presentation state key. -/
theorem C8_witness :
    (handle_confirm_booking dataEx3 [svcEx] true).outcome =
      ConfirmOutcome.insufficient ∧
    (handle_confirm_booking dataEx3 [svcEx] true).state_key =
      STATE_AWAIT_CHOICE ∧
    (handle_confirm_booking dataEx3 [svcEx] true).services = [svcEx] := by
  have h := C8_insufficient_nonfatal dataEx3 [svcEx] true bkEx3 svcEx rfl
    (by decide) (by decide)
  exact ⟨h.1, h.2.1, h.2.2.1⟩

/-- Claim C1: the registration flow only saves a service with status
active, remaining seats equal to total seats, and a validated seat count so
the seat invariant holds at creation; the status toggle and its database
write never touch the seat columns; and the confirmation handler preserves
the seat invariant of every row of the table, given that booked passenger
counts are non-negative (they come from the buttons 1 to 5) and that the
table ids are unique (the PRIMARY KEY constraint). -/
theorem C1_operations_preserve_seat_invariant :
    (∀ (pid name route seats : String) (aF cF tF : Option ℚ) (uid : String)
      (svc : Service),
      registration_pipeline pid name route seats aF cF tF uid = some svc →
      svc.status = "active" ∧ svc.remaining_seats = svc.total_seats ∧
        seatInvariant svc) ∧
    (∀ (db : List Service) (sid st : String),
      (∀ s ∈ db, seatInvariant s) →
      ∀ s2 ∈ update_service_status db sid st, seatInvariant s2) ∧
    (∀ s : Service, seatInvariant s → seatInvariant (toggle_status s)) ∧
    (∀ (d : SessionData) (db : List Service) (dbOk : Bool),
      (∀ s ∈ db, seatInvariant s) →
      (∀ bk, d.booking = some bk → 0 ≤ bk.total_passengers) →
      (db.map Service.id).Nodup →
      ∀ s2 ∈ (handle_confirm_booking d db dbOk).services, seatInvariant s2) := by
  refine ⟨?_, ?_, ?_, ?_⟩
  · -- registration
    intro pid name route seats aF cF tF uid svc h
    unfold registration_pipeline at h
    simp only [Option.bind_eq_some] at h
    obtain ⟨ns1, h1, ns2, h2, ns3, h3, ns4, h4, ns5, h5, h6⟩ := h
    unfold handle_seats_input at h3
    rcases hp : parseInt? (pyStrip seats.data) with _ | sv
    · simp only [hp] at h3
      exact Option.noConfusion h3
    · simp only [hp] at h3
      by_cases hcond : sv ≤ 0 ∨ sv > 100
      · rw [if_pos hcond] at h3
        cases h3
      · rw [if_neg hcond] at h3
        cases Option.some.inj h3
        rcases aF with _ | f1
        · simp only [handle_adult_fare_input] at h4
          exact Option.noConfusion h4
        · simp only [handle_adult_fare_input] at h4
          by_cases hf1 : f1 < 0
          · rw [if_pos hf1] at h4
            cases h4
          · rw [if_neg hf1] at h4
            cases Option.some.inj h4
            rcases cF with _ | f2
            · simp only [handle_child_fare_input] at h5
              exact Option.noConfusion h5
            · simp only [handle_child_fare_input] at h5
              by_cases hf2 : f2 < 0
              · rw [if_pos hf2] at h5
                cases h5
              · rw [if_neg hf2] at h5
                cases Option.some.inj h5
                rcases tF with _ | f3
                · simp only [handle_teacher_fare_input] at h6
                  exact Option.noConfusion h6
                · simp only [handle_teacher_fare_input] at h6
                  by_cases hf3 : f3 < 0
                  · rw [if_pos hf3] at h6
                    cases h6
                  · rw [if_neg hf3] at h6
                    cases Option.some.inj h6
                    refine ⟨rfl, rfl, ?_⟩
                    show (0 : Int) ≤ sv ∧ sv ≤ sv
                    omega
  · -- status update of the services table
    intro db sid st hinv s2 hs2
    unfold update_service_status at hs2
    obtain ⟨s, hs, rfl⟩ := List.mem_map.mp hs2
    by_cases hid : s.id == sid
    · rw [if_pos hid]
      have := hinv s hs
      rw [seatInvariant_def] at this ⊢
      simpa using this
    · rw [if_neg hid]
      exact hinv s hs
  · -- single-row status toggle
    intro s h
    rw [seatInvariant_def] at h ⊢
    simpa [toggle_status] using h
  · -- booking confirmation
    intro d db dbOk hinv hbk hnd s2 hs2
    cases hb : d.booking with
    | none =>
        simp only [handle_confirm_booking, hb] at hs2
        exact hinv s2 hs2
    | some bk =>
        simp only [handle_confirm_booking, hb] at hs2
        rcases hf : db.find? (fun s => s.id == bk.service_id) with _ | svc
        · simp only [hf] at hs2
          exact hinv s2 hs2
        · simp only [hf] at hs2
          by_cases hge : bk.total_passengers ≤ svc.remaining_seats
          · rw [if_pos hge] at hs2
            cases dbOk with
            | false =>
                rw [if_neg (by decide)] at hs2
                exact hinv s2 hs2
            | true =>
                rw [if_pos rfl] at hs2
                unfold update_service_remaining at hs2
                obtain ⟨s, hs, rfl⟩ := List.mem_map.mp hs2
                by_cases hid : s.id == bk.service_id
                · rw [if_pos hid]
                  have hmem := find?_mem_and_id hf
                  have hsid : s.id = bk.service_id := by simpa using hid
                  have heq : s = svc := eq_of_mem_of_nodup_ids hnd hs hmem.1
                    (by rw [hsid, hmem.2])
                  subst heq
                  have hi := hinv s hs
                  have hn := hbk bk hb
                  rw [seatInvariant_def] at hi ⊢
                  constructor
                  · show (0 : Int) ≤ s.remaining_seats - bk.total_passengers
                    omega
                  · show s.remaining_seats - bk.total_passengers ≤ s.total_seats
                    omega
                · rw [if_neg hid]
                  exact hinv s hs
          · rw [if_neg hge] at hs2
            exact hinv s2 hs2

/-- Claim C1 witness: the invariant facts at concrete inputs — the sample
registration run yields an active service with all 25 seats remaining, the
status toggle and its table write keep the invariant of the sample service,
and a successful one-passenger confirmation keeps the invariant of the
updated row. -/
theorem C1_witness :
    registration_pipeline "p" "Accra Express" "Accra - Kumasi" "25"
      (some 150) (some 75) (some 4) "SVC_9_p" = some svcRegEx ∧
    svcRegEx.status = "active" ∧
    svcRegEx.remaining_seats = svcRegEx.total_seats ∧
    seatInvariant svcRegEx ∧
    seatInvariant { svcEx with status := "unavailable" } ∧
    seatInvariant (toggle_status svcEx) ∧
    seatInvariant { svcEx with remaining_seats := 1 } := by
  have hpipe : registration_pipeline "p" "Accra Express" "Accra - Kumasi" "25"
      (some 150) (some 75) (some 4) "SVC_9_p" = some svcRegEx := rfl
  have hreg := C1_operations_preserve_seat_invariant.1 "p" "Accra Express"
    "Accra - Kumasi" "25" (some 150) (some 75) (some 4) "SVC_9_p" svcRegEx hpipe
  have hstat := C1_operations_preserve_seat_invariant.2.1 [svcEx] "SVC_1_p"
    "unavailable" (by decide) { svcEx with status := "unavailable" } (by decide)
  have htog := C1_operations_preserve_seat_invariant.2.2.1 svcEx (by decide)
  have hconf := C1_operations_preserve_seat_invariant.2.2.2 dataEx [svcEx] true
    (by decide)
    (fun bk hbk => by
      have h2 : some bkEx = some bk := hbk
      cases Option.some.inj h2
      decide)
    (by decide)
    { svcEx with remaining_seats := 1 } (by decide)
  exact ⟨hpipe, hreg.1, hreg.2.1, hreg.2.2, hstat, htog, hconf⟩

end RoutAfare
